import Mathlib

/-!
Verification of the RK4 Michaelis-Menten simulation in
`Answer to Question 2/Code&Figure/Runge_Kutta.py`.

The Python floats are embedded as exact rationals (`ℚ`); every definition
below is a direct transcription of the corresponding source function.
-/

namespace RungeKutta

/-- The classical four-stage Runge-Kutta step, transcribed from `RK4` in
`Runge_Kutta.py` (lines 12-27).  The source gives `t` the default value 0;
here `t` is the last explicit argument and callers pass 0. -/
def RK4 (y y1 y2 y3 h : ℚ) (f : ℚ → ℚ → ℚ → ℚ → ℚ → ℚ) (t : ℚ) : ℚ :=
  let k_1 := f t y y1 y2 y3
  let k_2 := f (t + h / 2) (y + h / 2 * k_1) y1 y2 y3
  let k_3 := f (t + h / 2) (y + h / 2 * k_2) y1 y2 y3
  let k_4 := f (t + h) (y + h * k_3) y1 y2 y3
  y + h / 6 * (k_1 + 2 * k_2 + 2 * k_3 + k_4)

/-- A concentration 4-tuple (E, S, ES, P), the `C0` list of the source. -/
structure Conc where
  E : ℚ
  S : ℚ
  ES : ℚ
  P : ℚ
deriving DecidableEq

/-- The rate-constant triple (k1, k2, k3), the `parameters` list of the
source. -/
structure Params where
  k1 : ℚ
  k2 : ℚ
  k3 : ℚ
deriving DecidableEq

/-- One step of the reaction system, transcribed from `reaction` in
`Runge_Kutta.py` (lines 30-56).  The four derivative closures only read
their own argument list (the Python parameters shadow the outer names)
plus the rate constants, exactly as in the source. -/
def reaction (C0 : Conc) (h : ℚ) (parameters : Params) : Conc :=
  let E := C0.E
  let S := C0.S
  let ES := C0.ES
  let P := C0.P
  let k1 := parameters.k1
  let k2 := parameters.k2
  let k3 := parameters.k3
  let dE : ℚ → ℚ → ℚ → ℚ → ℚ → ℚ := fun _t E S ES _P => -k1 * E * S + k2 * ES + k3 * ES
  let dS : ℚ → ℚ → ℚ → ℚ → ℚ → ℚ := fun _t S E ES _P => -k1 * E * S + k2 * ES
  let dES : ℚ → ℚ → ℚ → ℚ → ℚ → ℚ := fun _t ES S E _P => k1 * E * S - k2 * ES - k3 * ES
  let dP : ℚ → ℚ → ℚ → ℚ → ℚ → ℚ := fun _t _P _S ES _E => k3 * ES
  let E_next := RK4 E S ES P h dE 0
  let S_next := RK4 S E ES P h dS 0
  let ES_next := RK4 ES S E P h dES 0
  let P_next := RK4 P S ES E h dP 0
  ⟨E_next, S_next, ES_next, P_next⟩

/-- Driver constant: the step size `h = 0.00001` (line 59). -/
def h : ℚ := 1 / 100000

/-- Driver constant: the rate-constant list `parameters = [100, 600, 150]`
(line 61), kept as the literal Python list. -/
def parametersList : List ℚ := [100, 600, 150]

/-- The rate constants as the triple the `reaction` function unpacks. -/
def parameters : Params := ⟨100, 600, 150⟩

/-- Driver constant: the initial concentrations `C0 = [1, 10, 0, 0]`
(line 63). -/
def C0 : Conc := ⟨1, 10, 0, 0⟩

/-- Driver constant: the end time `t_end = 0.51` (line 65). -/
def t_end : ℚ := 51 / 100

/-- Modelled from numpy's documented semantics: for a positive step,
`np.arange(0, stop, step)` has `⌈stop / step⌉` elements
`0, step, 2·step, …` (exact arithmetic); this is the number of driver-loop
iterations (line 73). -/
def arangeLen (stop step : ℚ) : ℕ := (⌈stop / step⌉).toNat

/-- The state after `n` driver-loop iterations (`C` in the source). -/
def iterateReaction (hstep : ℚ) (p : Params) (C : Conc) : ℕ → Conc
  | 0 => C
  | n + 1 => reaction (iterateReaction hstep p C n) hstep p

/-- The accumulated time series after `n` loop iterations: the source
starts with `data = [C]` (line 69) and appends the new state once per
iteration (line 76). -/
def dataList (hstep : ℚ) (p : Params) (C : Conc) : ℕ → List Conc
  | 0 => [C]
  | n + 1 => dataList hstep p C n ++ [iterateReaction hstep p C (n + 1)]

/-- The full `data` list produced by the driver loop. -/
def data : List Conc := dataList h parameters C0 (arangeLen t_end h)

/-- The scalar the plotting section multiplies the ES column by:
`k3 = parameters[1]` (line 84, second element of the parameter list). -/
def plotK3 : ℚ := parametersList.getD 1 0

/-- The velocity series `V_P = k3 * C_ES` of line 85, one value per sample
of the series. -/
def V_P (series : List Conc) : List ℚ := series.map (fun c => plotK3 * c.ES)

/-- The RK4 amplification polynomial for a linear derivative: advancing
`y' = a - b*y` one step multiplies the slope `a - b*y` by `h * phiRK (b*h)`.
Used to state closed forms of the four decoupled sub-updates. -/
def phiRK (w : ℚ) : ℚ := 1 - w / 2 + w ^ 2 / 6 - w ^ 3 / 24

/-- Helper: the time series after `n` iterations has `n + 1` entries. -/
theorem dataList_length (hstep : ℚ) (p : Params) (C : Conc) (n : ℕ) :
    (dataList hstep p C n).length = n + 1 := by
  induction n with
  | zero => rfl
  | succ n ih => simp [dataList, ih]

/-- Claim C2: the RK4 step evaluator computes the four stage slopes
`k1 = f t y y1 y2 y3`, `k2 = f (t+h/2) (y+h/2*k1) y1 y2 y3`,
`k3 = f (t+h/2) (y+h/2*k2) y1 y2 y3`, `k4 = f (t+h) (y+h*k3) y1 y2 y3`
and returns `y + h/6*(k1 + 2*k2 + 2*k3 + k4)`. -/
theorem RK4_stage_formula (y y1 y2 y3 hstep t : ℚ)
    (f : ℚ → ℚ → ℚ → ℚ → ℚ → ℚ) (s1 s2 s3 s4 : ℚ)
    (h1 : s1 = f t y y1 y2 y3)
    (h2 : s2 = f (t + hstep / 2) (y + hstep / 2 * s1) y1 y2 y3)
    (h3 : s3 = f (t + hstep / 2) (y + hstep / 2 * s2) y1 y2 y3)
    (h4 : s4 = f (t + hstep) (y + hstep * s3) y1 y2 y3) :
    RK4 y y1 y2 y3 hstep f t = y + hstep / 6 * (s1 + 2 * s2 + 2 * s3 + s4) := by
  subst h1 h2 h3 h4
  rfl

/-- Witness for C2 at a concrete input: `f t y _ _ _ = y`, `y = 1`,
`h = 2`, so the stage slopes are 1, 2, 3, 7 and the step returns 7. -/
theorem RK4_stage_formula_witness :
    RK4 1 0 0 0 2 (fun _t y _ _ _ => y) 0 = 1 + 2 / 6 * (1 + 2 * 2 + 2 * 3 + 7) :=
  RK4_stage_formula 1 0 0 0 2 0 (fun _t y _ _ _ => y) 1 2 3 7
    (by norm_num) (by norm_num) (by norm_num) (by norm_num)

/-- Claim C3: one reaction step is four independent RK4 calls, one per
species, with derivative functions
`dE = -k1*E*S + k2*ES + k3*ES`, `dS = -k1*E*S + k2*ES`,
`dES = k1*E*S - k2*ES - k3*ES`, `dP = k3*ES`, the three companion species
in each call frozen at their pre-step values from the same snapshot. -/
theorem reaction_decoupled (E S ES P hstep k1 k2 k3 : ℚ) :
    reaction ⟨E, S, ES, P⟩ hstep ⟨k1, k2, k3⟩ =
      ⟨RK4 E S ES P hstep (fun _t E S ES _P => -k1 * E * S + k2 * ES + k3 * ES) 0,
       RK4 S E ES P hstep (fun _t S E ES _P => -k1 * E * S + k2 * ES) 0,
       RK4 ES S E P hstep (fun _t ES S E _P => k1 * E * S - k2 * ES - k3 * ES) 0,
       RK4 P S ES E hstep (fun _t _P _S ES _E => k3 * ES) 0⟩ := rfl

/-- Claim C9: a step of size 0 is the identity on the concentration
vector, for every state and every rate-constant triple. -/
theorem reaction_zero_step (C : Conc) (p : Params) :
    reaction C 0 p = C := by
  cases C
  simp [reaction, RK4]

/-- Claim C10: the product component of a reaction step is exactly the
Euler update `P + h * k3 * ES`: the product derivative ignores the product
concentration, so all four stage slopes coincide. -/
theorem reaction_product_euler (E S ES P hstep k1 k2 k3 : ℚ) :
    (reaction ⟨E, S, ES, P⟩ hstep ⟨k1, k2, k3⟩).P = P + hstep * k3 * ES := by
  simp [reaction, RK4]
  ring

/-- Helper: closed form of the enzyme sub-update.  The derivative `dE` is
linear in its own argument, `y' = (k2+k3)*ES - (k1*S)*y`. -/
theorem reaction_E_closed (E S ES P hstep k1 k2 k3 : ℚ) :
    (reaction ⟨E, S, ES, P⟩ hstep ⟨k1, k2, k3⟩).E =
      E + hstep * (k2 * ES + k3 * ES - k1 * E * S) * phiRK (k1 * S * hstep) := by
  simp only [reaction, RK4, phiRK]
  ring

/-- Helper: closed form of the substrate sub-update, `y' = k2*ES - (k1*E)*y`. -/
theorem reaction_S_closed (E S ES P hstep k1 k2 k3 : ℚ) :
    (reaction ⟨E, S, ES, P⟩ hstep ⟨k1, k2, k3⟩).S =
      S + hstep * (k2 * ES - k1 * E * S) * phiRK (k1 * E * hstep) := by
  simp only [reaction, RK4, phiRK]
  ring

/-- Helper: closed form of the complex sub-update, `y' = k1*E*S - (k2+k3)*y`. -/
theorem reaction_ES_closed (E S ES P hstep k1 k2 k3 : ℚ) :
    (reaction ⟨E, S, ES, P⟩ hstep ⟨k1, k2, k3⟩).ES =
      ES + hstep * (k1 * E * S - k2 * ES - k3 * ES) * phiRK ((k2 + k3) * hstep) := by
  simp only [reaction, RK4, phiRK]
  ring

/-- Helper: on `[0, 1/100]` the amplification polynomial lies in
`[1 - w/2, 1]`. -/
theorem phiRK_bounds (w : ℚ) (h0 : 0 ≤ w) (h1 : w ≤ 1 / 100) :
    1 - w / 2 ≤ phiRK w ∧ phiRK w ≤ 1 := by
  unfold phiRK
  constructor
  · nlinarith [sq_nonneg w, mul_nonneg (mul_nonneg h0 h0) h0]
  · nlinarith [sq_nonneg w, mul_nonneg (mul_nonneg h0 h0) h0]

/-- Helper: two values of the amplification polynomial on `[0, 1/100]`
differ by at most `1/200`. -/
theorem phiRK_diff_bound (u v : ℚ) (hu0 : 0 ≤ u) (hu1 : u ≤ 1 / 100)
    (hv0 : 0 ≤ v) (hv1 : v ≤ 1 / 100) :
    |phiRK u - phiRK v| ≤ 1 / 200 := by
  obtain ⟨hA1, hA2⟩ := phiRK_bounds u hu0 hu1
  obtain ⟨hB1, hB2⟩ := phiRK_bounds v hv0 hv1
  set a := phiRK u
  set b := phiRK v
  rw [abs_le]
  constructor <;> linarith

/-- Helper: on `[0, 1/100]` the amplification polynomial is within `1/200`
of 1. -/
theorem phiRK_near_one (w : ℚ) (h0 : 0 ≤ w) (h1 : w ≤ 1 / 100) :
    |phiRK w - 1| ≤ 1 / 200 := by
  obtain ⟨hA1, hA2⟩ := phiRK_bounds w h0 h1
  set a := phiRK w
  rw [abs_le]
  constructor <;> linarith

/-- Helper: closed form of the product sub-update.  The derivative `dP`
ignores its own argument, so the four stage slopes coincide and the update
is the Euler step. -/
theorem reaction_P_closed (E S ES P hstep k1 k2 k3 : ℚ) :
    (reaction ⟨E, S, ES, P⟩ hstep ⟨k1, k2, k3⟩).P = P + hstep * (k3 * ES) := by
  simp only [reaction, RK4]
  ring

set_option maxHeartbeats 1600000 in
/-- Claim C8 (amended): for every state in the box 0 ≤ E ≤ 1, 0 ≤ S ≤ 10,
0 ≤ ES, 0 ≤ P and every step size 0 ≤ h ≤ 1e-5, one reaction step with the
default rate constants (100, 600, 150) changes E + ES by at most
2e-4·(E + ES) and S + ES + P by at most 2e-4·(S + ES + P).  (The spec's
1e-6 relative tolerance is already violated at the run's initial state;
see the counterexample theorem.) -/
theorem reaction_near_conservation (E S ES P hstep : ℚ)
    (hE0 : 0 ≤ E) (hE1 : E ≤ 1) (hS0 : 0 ≤ S) (hS1 : S ≤ 10)
    (hES0 : 0 ≤ ES) (hP0 : 0 ≤ P) (hh0 : 0 ≤ hstep) (hh1 : hstep ≤ 1 / 100000) :
    |((reaction ⟨E, S, ES, P⟩ hstep ⟨100, 600, 150⟩).E +
        (reaction ⟨E, S, ES, P⟩ hstep ⟨100, 600, 150⟩).ES) - (E + ES)| ≤
      2 / 10000 * (E + ES) ∧
    |((reaction ⟨E, S, ES, P⟩ hstep ⟨100, 600, 150⟩).S +
        (reaction ⟨E, S, ES, P⟩ hstep ⟨100, 600, 150⟩).ES +
        (reaction ⟨E, S, ES, P⟩ hstep ⟨100, 600, 150⟩).P) - (S + ES + P)| ≤
      2 / 10000 * (S + ES + P) := by
  have hES' : (0:ℚ) ≤ E * S := mul_nonneg hE0 hS0
  have hES10 : E * S ≤ E * 10 := mul_le_mul_of_nonneg_left hS1 hE0
  have hES1 : E * S ≤ 1 * S := mul_le_mul_of_nonneg_right hE1 hS0
  have hu0 : (0:ℚ) ≤ 100 * S * hstep := by positivity
  have hu1 : 100 * S * hstep ≤ 1 / 100 := by nlinarith
  have hv0 : (0:ℚ) ≤ (600 + 150 : ℚ) * hstep := by positivity
  have hv1 : (600 + 150 : ℚ) * hstep ≤ 1 / 100 := by nlinarith
  have hx0 : (0:ℚ) ≤ 100 * E * hstep := by positivity
  have hx1 : 100 * E * hstep ≤ 1 / 100 := by nlinarith
  have habs_h : |hstep| ≤ 1 / 100000 := by rw [abs_of_nonneg hh0]; exact hh1
  constructor
  · have hId : (reaction ⟨E, S, ES, P⟩ hstep ⟨100, 600, 150⟩).E +
        (reaction ⟨E, S, ES, P⟩ hstep ⟨100, 600, 150⟩).ES - (E + ES) =
        hstep * (600 * ES + 150 * ES - 100 * E * S) *
          (phiRK (100 * S * hstep) - phiRK ((600 + 150) * hstep)) := by
      rw [reaction_E_closed, reaction_ES_closed]
      ring
    have h2 : |600 * ES + 150 * ES - 100 * E * S| ≤ 1000 * (E + ES) := by
      rw [abs_le]
      constructor <;> nlinarith
    have h3 : |phiRK (100 * S * hstep) - phiRK ((600 + 150) * hstep)| ≤ 1 / 200 :=
      phiRK_diff_bound _ _ hu0 hu1 hv0 hv1
    have m1 : |hstep| * |600 * ES + 150 * ES - 100 * E * S| ≤
        1 / 100000 * (1000 * (E + ES)) :=
      mul_le_mul habs_h h2 (abs_nonneg _) (by norm_num)
    have m2 : |hstep| * |600 * ES + 150 * ES - 100 * E * S| *
        |phiRK (100 * S * hstep) - phiRK ((600 + 150) * hstep)| ≤
        1 / 100000 * (1000 * (E + ES)) * (1 / 200) :=
      mul_le_mul m1 h3 (abs_nonneg _)
        (mul_nonneg (by norm_num) (by linarith))
    calc |(reaction ⟨E, S, ES, P⟩ hstep ⟨100, 600, 150⟩).E +
          (reaction ⟨E, S, ES, P⟩ hstep ⟨100, 600, 150⟩).ES - (E + ES)|
        = |hstep| * |600 * ES + 150 * ES - 100 * E * S| *
            |phiRK (100 * S * hstep) - phiRK ((600 + 150) * hstep)| := by
          rw [hId, abs_mul, abs_mul]
      _ ≤ 1 / 100000 * (1000 * (E + ES)) * (1 / 200) := m2
      _ ≤ 2 / 10000 * (E + ES) := by nlinarith
  · have hId : (reaction ⟨E, S, ES, P⟩ hstep ⟨100, 600, 150⟩).S +
        (reaction ⟨E, S, ES, P⟩ hstep ⟨100, 600, 150⟩).ES +
        (reaction ⟨E, S, ES, P⟩ hstep ⟨100, 600, 150⟩).P - (S + ES + P) =
        hstep * (600 * ES - 100 * E * S) * (phiRK (100 * E * hstep) - 1) +
        hstep * (100 * E * S - 600 * ES - 150 * ES) *
          (phiRK ((600 + 150) * hstep) - 1) := by
      rw [reaction_S_closed, reaction_ES_closed, reaction_P_closed]
      ring
    have hcS : |600 * ES - 100 * E * S| ≤ 700 * (S + ES + P) := by
      rw [abs_le]
      constructor <;> nlinarith
    have hcES : |100 * E * S - 600 * ES - 150 * ES| ≤ 850 * (S + ES + P) := by
      rw [abs_le]
      constructor <;> nlinarith
    have hphix : |phiRK (100 * E * hstep) - 1| ≤ 1 / 200 :=
      phiRK_near_one _ hx0 hx1
    have hphiv : |phiRK ((600 + 150) * hstep) - 1| ≤ 1 / 200 :=
      phiRK_near_one _ hv0 hv1
    have hQ : (0:ℚ) ≤ S + ES + P := by linarith
    have m1 : |hstep * (600 * ES - 100 * E * S) * (phiRK (100 * E * hstep) - 1)| ≤
        1 / 100000 * (700 * (S + ES + P)) * (1 / 200) := by
      rw [abs_mul, abs_mul]
      exact mul_le_mul (mul_le_mul habs_h hcS (abs_nonneg _) (by norm_num))
        hphix (abs_nonneg _) (mul_nonneg (by norm_num) (by linarith))
    have m2 : |hstep * (100 * E * S - 600 * ES - 150 * ES) *
        (phiRK ((600 + 150) * hstep) - 1)| ≤
        1 / 100000 * (850 * (S + ES + P)) * (1 / 200) := by
      rw [abs_mul, abs_mul]
      exact mul_le_mul (mul_le_mul habs_h hcES (abs_nonneg _) (by norm_num))
        hphiv (abs_nonneg _) (mul_nonneg (by norm_num) (by linarith))
    calc |(reaction ⟨E, S, ES, P⟩ hstep ⟨100, 600, 150⟩).S +
          (reaction ⟨E, S, ES, P⟩ hstep ⟨100, 600, 150⟩).ES +
          (reaction ⟨E, S, ES, P⟩ hstep ⟨100, 600, 150⟩).P - (S + ES + P)|
        = |hstep * (600 * ES - 100 * E * S) * (phiRK (100 * E * hstep) - 1) +
            hstep * (100 * E * S - 600 * ES - 150 * ES) *
              (phiRK ((600 + 150) * hstep) - 1)| := by rw [hId]
      _ ≤ |hstep * (600 * ES - 100 * E * S) * (phiRK (100 * E * hstep) - 1)| +
            |hstep * (100 * E * S - 600 * ES - 150 * ES) *
              (phiRK ((600 + 150) * hstep) - 1)| := abs_add _ _
      _ ≤ 1 / 100000 * (700 * (S + ES + P)) * (1 / 200) +
            1 / 100000 * (850 * (S + ES + P)) * (1 / 200) := add_le_add m1 m2
      _ ≤ 2 / 10000 * (S + ES + P) := by nlinarith

/-- Witness for the amended C8 at the run's initial state with the
default step size. -/
theorem reaction_near_conservation_witness :
    |((reaction ⟨1, 10, 0, 0⟩ (1 / 100000) ⟨100, 600, 150⟩).E +
        (reaction ⟨1, 10, 0, 0⟩ (1 / 100000) ⟨100, 600, 150⟩).ES) - (1 + 0)| ≤
      2 / 10000 * (1 + 0) ∧
    |((reaction ⟨1, 10, 0, 0⟩ (1 / 100000) ⟨100, 600, 150⟩).S +
        (reaction ⟨1, 10, 0, 0⟩ (1 / 100000) ⟨100, 600, 150⟩).ES +
        (reaction ⟨1, 10, 0, 0⟩ (1 / 100000) ⟨100, 600, 150⟩).P) - (10 + 0 + 0)| ≤
      2 / 10000 * (10 + 0 + 0) :=
  reaction_near_conservation 1 10 0 0 (1 / 100000) (by norm_num) (by norm_num)
    (by norm_num) (by norm_num) (by norm_num) (by norm_num) (by norm_num) (by norm_num)

/-- Counterexample for C8 as stated: at the run's initial state
C0 = (1, 10, 0, 0), itself reached by the run, one step with the default
h = 1e-5 changes E + ES by more than 1e-6 relative (the exact relative
change is 636279/51200000000 ≈ 1.24e-5). -/
theorem conservation_tolerance_violated :
    |((reaction C0 h parameters).E + (reaction C0 h parameters).ES) - (C0.E + C0.ES)| >
      1 / 1000000 * (C0.E + C0.ES) := by
  rw [gt_iff_lt, lt_abs]
  norm_num [reaction, RK4, C0, h, parameters]

/-- Claim C1 (code bug evidence): the plotting section's velocity factor is
`parameters[1] = 600` — the unbinding constant k2 — not the catalysis
constant `k3 = parameters[2] = 150` that the spec (and the file's own
`k1, k2, k3 = parameters` convention) calls for, so on the sample after one
step (where ES ≠ 0) the velocity the code emits differs from k3·ES. -/
theorem V_P_uses_second_constant :
    plotK3 = 600 ∧ parameters.k3 = 150 ∧
    V_P [reaction C0 h parameters] = [plotK3 * (reaction C0 h parameters).ES] ∧
    plotK3 * (reaction C0 h parameters).ES ≠
      parameters.k3 * (reaction C0 h parameters).ES := by
  refine ⟨rfl, rfl, rfl, ?_⟩
  norm_num [reaction, RK4, C0, h, parameters, plotK3, parametersList]

/-- Claim C4: the accumulated time series has
`floor(t_end / h) + 1` entries; with the default `t_end = 0.51` and
`h = 0.00001` that is 51001. -/
theorem data_length : data.length = 51001 ∧ (51001 : ℤ) = ⌊t_end / h⌋ + 1 := by
  constructor
  · rw [data, dataList_length]
    unfold arangeLen t_end h
    norm_num
    rfl
  · unfold t_end h
    norm_num

/-- Claim C5: from C0 = (1, 10, 0, 0) with the default rate constants and
h = 0.00001, one reaction step strictly decreases the substrate and moves
the enzyme to within 1e-4 of the first-order value 0.99 (the exact value
is 792039867/800000000 = 0.99004983375). -/
theorem one_step_fixture :
    (reaction C0 h parameters).S < 10 ∧
    |(reaction C0 h parameters).E - 99 / 100| ≤ 1 / 10000 := by
  rw [abs_le]
  norm_num [reaction, RK4, C0, h, parameters]

end RungeKutta
